import Mathlib

/-!
Verification development for the WAF policy generator
(`generator/validators.py`, `generator/rule_builder.py`,
`generator/terraform_builder.py`).

Python dictionaries are embedded as structures whose fields are `Option`s
(`none` models an absent key, mirroring `dict.get`).  The recursive
statement dictionaries are embedded as the inductive `Stmt`, one
constructor per key shape the code probes for.  String-building code is
embedded character-faithfully; literal braces in generated HCL text are
written with `\x7b` / `\x7d` escapes and single quotes with `\x27`.
-/

/-- Blanks used for HCL indentation: models Python `" " * indent`. -/
def indentStr (n : Nat) : String := ⟨List.replicate n ' '⟩

/-- ASCII lower-casing of a whole string: models Python `str.lower()`. -/
def py_lower (s : String) : String := ⟨s.data.map Char.toLower⟩

/-- ASCII upper-casing of a whole string: models Python `str.upper()`. -/
def py_upper (s : String) : String := ⟨s.data.map Char.toUpper⟩

/-- Worker for `py_replace`; the `Nat` fuel (instantiated with the length
of the scanned text, enough for the nonempty patterns used here) keeps the
recursion structural so that proofs can evaluate it. -/
def replaceGo (pat rep : List Char) : Nat → List Char → List Char
  | 0, l => l
  | _ + 1, [] => []
  | fuel + 1, c :: rest =>
    if List.isPrefixOf pat (c :: rest) then
      rep ++ replaceGo pat rep fuel ((c :: rest).drop pat.length)
    else
      c :: replaceGo pat rep fuel rest

/-- Left-to-right non-overlapping substring replacement: models Python
`str.replace(pat, rep)` (for the nonempty literal patterns the generator
uses). -/
def py_replace (s pat rep : String) : String :=
  if pat.data.isEmpty then s
  else ⟨replaceGo pat.data rep.data s.data.length s.data⟩

/-- Python truthiness of an optional string (`None` and `""` are falsy). -/
def truthyStr : Option String → Bool
  | none => false
  | some s => s != ""

/-- Python `str(x)` on an optional value, printing `None` for an absent
key (as in `f"...{suite.get('name')}..."`). -/
def py_str_opt : Option String → String
  | none => "None"
  | some s => s

/-- Single-quote a string, as the f-strings of `validators.py` do. -/
def quo (s : String) : String := "\x27" ++ s ++ "\x27"

/-- Substring test, used to state what an error message does not mention. -/
def strContains (s pat : String) : Bool :=
  s.data.tails.any (fun t => List.isPrefixOf pat.data t)

/-- Models Python `"\n".join(...)`. -/
def joinNL (l : List String) : String := String.intercalate "\n" l

/-- One `text_transformations` list entry (keys `priority`, `type`). -/
structure TextTransformationDict where
  priority : Option Int := none
  type : Option String := none

/-- One `allowed_hosts` entry (keys `host`, `match`). -/
structure HostDef where
  host : Option String := none
  match_ : Option String := none

/-- Leaf match dictionary: the union of the keys read from `byte_match`,
`sqli_match`, `xss_match`, `size_constraint`, `regex_match` and
`label_match` dictionaries (absent keys are `none`). -/
structure MatchDict where
  field : Option String := none
  search_string : Option String := none
  positional_constraint : Option String := none
  text_transformations : Option (List TextTransformationDict) := none
  oversize_handling : Option String := none
  header_name : Option String := none
  sensitivity_level : Option String := none
  comparison_operator : Option String := none
  size : Option Int := none
  regex_string : Option String := none
  scope : Option String := none
  key : Option String := none

/-- Statement tree: one constructor per key shape `build_statement` and
`_validate_statement` probe for.  `or_hosts` values split into the
`${allowed_hosts}` token, an inline list, and any other value (which the
compiler treats as the empty list); `unrecognized` covers every
dictionary matching none of the probed keys. -/
inductive Stmt where
  | andS (children : List Stmt)
  | orS (children : List Stmt)
  | notS (child : Stmt)
  | orMethods (methods : List String)
  | orHostsAllowedTok
  | orHostsInline (hosts : List HostDef)
  | orHostsOther
  | byteMatch (m : MatchDict)
  | sqliMatch (m : MatchDict)
  | xssMatch (m : MatchDict)
  | sizeConstraint (m : MatchDict)
  | regexMatch (m : MatchDict)
  | labelMatch (m : MatchDict)
  | unrecognized

/-- A rule's `custom_response` dictionary. -/
structure CustomResponse where
  response_code : Option Int := none
  custom_response_body_key : Option String := none

/-- A rule inside a `custom` group. -/
structure Rule where
  name : Option String := none
  priority : Option Int := none
  action : Option String := none
  label : Option String := none
  custom_response : Option CustomResponse := none
  statement : Option Stmt := none

/-- An entry of `rule_action_overrides_count` / `_block`; the builder
indexes `override["name"]` and `override["action"]` directly, so both
keys are required. -/
structure RuleActionOverride where
  name : String
  action : String

/-- A rule-group dictionary (tagged by its `type` key). -/
structure RuleGroup where
  type : Option String := none
  name : Option String := none
  order : Option Int := none
  include_in_count : Option Bool := none
  override_action_count : Option String := none
  override_action_block : Option String := none
  rule_action_overrides_count : Option (List RuleActionOverride) := none
  rule_action_overrides_block : Option (List RuleActionOverride) := none
  arn_variable : Option String := none
  arn_variable_count : Option String := none
  arn_variable_block : Option String := none
  module_source : Option String := none
  output_arn : Option String := none
  ip_addresses : Option (List String) := none
  managed_rule_group : Option String := none
  capacity : Option Int := none
  description : Option String := none
  namespace_ : Option String := none
  rules : Option (List Rule) := none

/-- The `metadata` section. -/
structure Metadata where
  project : Option String := none
  policy_name : Option String := none
  account_id : Option String := none
  environment : Option String := none
  policy_version : Option String := none

/-- The `settings` keys the validator reads. -/
structure Settings where
  scope : Option String := none
  default_action : Option String := none

/-- The `security_policy` section. -/
structure SecurityPolicy where
  first_rule_groups : Option (List String) := none
  last_rule_groups : Option (List String) := none

/-- One test of a test suite (only `id` and `request` presence matter). -/
structure TestCase where
  id : Option String := none
  request : Option String := none

/-- One entry of `test_definitions.test_suites`. -/
structure TestSuite where
  name : Option String := none
  tests : Option (List TestCase) := none

/-- The `test_definitions` section (`none` also models the empty,
falsy dictionary the code skips). -/
structure TestDefs where
  test_suites : Option (List TestSuite) := none

/-- The parsed configuration document.  `rule_groups` is an association
list preserving the source insertion order of `dict.items()`. -/
structure PolicyConfig where
  version : Option String := none
  metadata : Option Metadata := none
  settings : Option Settings := none
  allowed_hosts : Option (List HostDef) := none
  rule_groups : Option (List (String × RuleGroup)) := none
  security_policy : Option SecurityPolicy := none
  test_definitions : Option TestDefs := none

/-- Models `expand_template`: substitutes the single `${account_id}`
token from `config["metadata"]["account_id"]` (empty default). -/
def expand_template (template : String) (config : PolicyConfig) : String :=
  let account_id := (config.metadata.getD {}).account_id.getD ""
  py_replace template "$\x7baccount_id\x7d" account_id

/-- Models `build_field_to_match` (the compiler's field-lowering table);
`config` is the leaf dictionary that carries `oversize_handling` /
`header_name`. -/
def build_field_to_match (field : String) (config : MatchDict) : String :=
  let field_upper := py_upper field
  if field_upper = "BODY" then
    let oversize := config.oversize_handling.getD "CONTINUE"
    "field_to_match \x7b\n          body \x7b\n            oversize_handling = \"" ++ oversize ++ "\"\n          \x7d\n        \x7d"
  else if field_upper = "QUERY_STRING" then
    "field_to_match \x7b\n          query_string \x7b\x7d\n        \x7d"
  else if field_upper = "URI_PATH" then
    "field_to_match \x7b\n          uri_path \x7b\x7d\n        \x7d"
  else if field_upper = "METHOD" then
    "field_to_match \x7b\n          method \x7b\x7d\n        \x7d"
  else if field_upper = "SINGLE_HEADER" then
    let header_name := py_lower (config.header_name.getD "")
    "field_to_match \x7b\n          single_header \x7b\n            name = \"" ++ header_name ++ "\"\n          \x7d\n        \x7d"
  else if field_upper = "ALL_QUERY_ARGUMENTS" then
    "field_to_match \x7b\n          all_query_arguments \x7b\x7d\n        \x7d"
  else
    "field_to_match \x7b\n          body \x7b\x7d\n        \x7d"

/-- Models `build_text_transformations`; Python treats both a missing and
an empty list as falsy, emitting the default NONE transformation. -/
def build_text_transformations (transformations : Option (List TextTransformationDict)) : String :=
  match transformations with
  | none =>
    "text_transformation \x7b\n          priority = 0\n          type     = \"NONE\"\n        \x7d"
  | some [] =>
    "text_transformation \x7b\n          priority = 0\n          type     = \"NONE\"\n        \x7d"
  | some ts =>
    String.intercalate "\n        " (ts.map (fun t =>
      "text_transformation \x7b\n          priority = " ++ toString (t.priority.getD 0) ++ "\n          type     = \"" ++ t.type.getD "NONE" ++ "\"\n        \x7d"))

/-- Models `build_byte_match_statement`. -/
def build_byte_match_statement (byte_match : MatchDict) (indent : Nat) : String :=
  let ind := indentStr indent
  let field := byte_match.field.getD "BODY"
  let search_string := byte_match.search_string.getD ""
  let constraint := byte_match.positional_constraint.getD "CONTAINS"
  let field_block := build_field_to_match field byte_match
  let transform_block := build_text_transformations byte_match.text_transformations
  ind ++ "byte_match_statement \x7b\n" ++
  ind ++ "  search_string         = \"" ++ search_string ++ "\"\n" ++
  ind ++ "  positional_constraint = \"" ++ constraint ++ "\"\n" ++
  ind ++ "  " ++ field_block ++ "\n" ++
  ind ++ "  " ++ transform_block ++ "\n" ++
  ind ++ "\x7d"

/-- Models `build_sqli_match_statement` (sensitivity level defaults LOW). -/
def build_sqli_match_statement (sqli_match : MatchDict) (indent : Nat) : String :=
  let ind := indentStr indent
  let field := sqli_match.field.getD "BODY"
  let sensitivity_level := sqli_match.sensitivity_level.getD "LOW"
  let field_block := build_field_to_match field sqli_match
  let transform_block := build_text_transformations sqli_match.text_transformations
  ind ++ "sqli_match_statement \x7b\n" ++
  ind ++ "  sensitivity_level = \"" ++ sensitivity_level ++ "\"\n" ++
  ind ++ "  " ++ field_block ++ "\n" ++
  ind ++ "  " ++ transform_block ++ "\n" ++
  ind ++ "\x7d"

/-- Models `build_xss_match_statement`. -/
def build_xss_match_statement (xss_match : MatchDict) (indent : Nat) : String :=
  let ind := indentStr indent
  let field := xss_match.field.getD "BODY"
  let field_block := build_field_to_match field xss_match
  let transform_block := build_text_transformations xss_match.text_transformations
  ind ++ "xss_match_statement \x7b\n" ++
  ind ++ "  " ++ field_block ++ "\n" ++
  ind ++ "  " ++ transform_block ++ "\n" ++
  ind ++ "\x7d"

/-- Models `build_size_constraint_statement`. -/
def build_size_constraint_statement (size_constraint : MatchDict) (indent : Nat) : String :=
  let ind := indentStr indent
  let field := size_constraint.field.getD "BODY"
  let operator := size_constraint.comparison_operator.getD "GT"
  let size := size_constraint.size.getD 0
  let field_block := build_field_to_match field size_constraint
  let transform_block := build_text_transformations size_constraint.text_transformations
  ind ++ "size_constraint_statement \x7b\n" ++
  ind ++ "  comparison_operator = \"" ++ operator ++ "\"\n" ++
  ind ++ "  size                = " ++ toString size ++ "\n" ++
  ind ++ "  " ++ field_block ++ "\n" ++
  ind ++ "  " ++ transform_block ++ "\n" ++
  ind ++ "\x7d"

/-- Models `build_regex_match_statement`. -/
def build_regex_match_statement (regex_match : MatchDict) (indent : Nat) : String :=
  let ind := indentStr indent
  let field := regex_match.field.getD "BODY"
  let regex_string := regex_match.regex_string.getD ""
  let field_block := build_field_to_match field regex_match
  let transform_block := build_text_transformations regex_match.text_transformations
  ind ++ "regex_match_statement \x7b\n" ++
  ind ++ "  regex_string = \"" ++ regex_string ++ "\"\n" ++
  ind ++ "  " ++ field_block ++ "\n" ++
  ind ++ "  " ++ transform_block ++ "\n" ++
  ind ++ "\x7d"

/-- Models `build_label_match_statement` (key undergoes template
expansion). -/
def build_label_match_statement (label_match : MatchDict) (config : PolicyConfig) (indent : Nat) : String :=
  let ind := indentStr indent
  let scope := label_match.scope.getD "LABEL"
  let key := expand_template (label_match.key.getD "") config
  ind ++ "label_match_statement \x7b\n" ++
  ind ++ "  scope = \"" ++ scope ++ "\"\n" ++
  ind ++ "  key   = \"" ++ key ++ "\"\n" ++
  ind ++ "\x7d"

/-- Models `build_or_methods_statement`: one hand-rolled byte-match block
per HTTP method, joined under an `or_statement`. -/
def build_or_methods_statement (methods : List String) (indent : Nat) : String :=
  let ind := indentStr indent
  let statements := methods.map (fun method =>
    ind ++ "  statement \x7b\n" ++
    ind ++ "    byte_match_statement \x7b\n" ++
    ind ++ "      search_string         = \"" ++ py_lower method ++ "\"\n" ++
    ind ++ "      positional_constraint = \"EXACTLY\"\n" ++
    ind ++ "      field_to_match \x7b\n" ++
    ind ++ "        method \x7b\x7d\n" ++
    ind ++ "      \x7d\n" ++
    ind ++ "      text_transformation \x7b\n" ++
    ind ++ "        priority = 0\n" ++
    ind ++ "        type     = \"LOWERCASE\"\n" ++
    ind ++ "      \x7d\n" ++
    ind ++ "    \x7d\n" ++
    ind ++ "  \x7d")
  ind ++ "or_statement \x7b\n" ++ joinNL statements ++ "\n" ++ ind ++ "\x7d"

/-- Models `build_or_hosts_statement`: one hand-rolled byte-match block
per host definition, joined under an `or_statement`. -/
def build_or_hosts_statement (hosts : List HostDef) (indent : Nat) : String :=
  let ind := indentStr indent
  let statements := hosts.map (fun host_def =>
    let host := host_def.host.getD ""
    let match_type := host_def.match_.getD "EXACTLY"
    ind ++ "  statement \x7b\n" ++
    ind ++ "    byte_match_statement \x7b\n" ++
    ind ++ "      search_string         = \"" ++ host ++ "\"\n" ++
    ind ++ "      positional_constraint = \"" ++ match_type ++ "\"\n" ++
    ind ++ "      field_to_match \x7b\n" ++
    ind ++ "        single_header \x7b\n" ++
    ind ++ "          name = \"host\"\n" ++
    ind ++ "        \x7d\n" ++
    ind ++ "      \x7d\n" ++
    ind ++ "      text_transformation \x7b\n" ++
    ind ++ "        priority = 0\n" ++
    ind ++ "        type     = \"LOWERCASE\"\n" ++
    ind ++ "      \x7d\n" ++
    ind ++ "    \x7d\n" ++
    ind ++ "  \x7d")
  ind ++ "or_statement \x7b\n" ++ joinNL statements ++ "\n" ++ ind ++ "\x7d"

mutual

/-- Models `build_statement`: recursive descent over the statement tree.
The final catch-all of the Python function (no probed key matches)
returns the empty string. -/
def build_statement (statement : Stmt) (config : PolicyConfig) (indent : Nat) : String :=
  let ind := indentStr indent
  match statement with
  | .andS subs =>
    ind ++ "and_statement \x7b\n" ++ joinNL (build_sub_statements subs config indent) ++ "\n" ++ ind ++ "\x7d"
  | .orS subs =>
    ind ++ "or_statement \x7b\n" ++ joinNL (build_sub_statements subs config indent) ++ "\n" ++ ind ++ "\x7d"
  | .notS sub =>
    ind ++ "not_statement \x7b\n" ++ ind ++ "  statement \x7b\n" ++ build_statement sub config (indent + 2) ++ "\n" ++ ind ++ "  \x7d\n" ++ ind ++ "\x7d"
  | .orMethods methods => build_or_methods_statement methods indent
  | .orHostsAllowedTok => build_or_hosts_statement (config.allowed_hosts.getD []) indent
  | .orHostsInline hosts => build_or_hosts_statement hosts indent
  | .orHostsOther => build_or_hosts_statement [] indent
  | .byteMatch m => build_byte_match_statement m indent
  | .sqliMatch m => build_sqli_match_statement m indent
  | .xssMatch m => build_xss_match_statement m indent
  | .sizeConstraint m => build_size_constraint_statement m indent
  | .regexMatch m => build_regex_match_statement m indent
  | .labelMatch m => build_label_match_statement m config indent
  | .unrecognized => ""

/-- Child list of an and/or combinator: each child is compiled two columns
deeper and wrapped in a generic `statement` container (the loop bodies of
the `and` / `or` branches of `build_statement`). -/
def build_sub_statements (subs : List Stmt) (config : PolicyConfig) (indent : Nat) : List String :=
  match subs with
  | [] => []
  | s :: rest =>
    (indentStr indent ++ "  statement \x7b\n" ++ build_statement s config (indent + 2) ++ "\n" ++ indentStr indent ++ "  \x7d")
      :: build_sub_statements rest config indent

end

/-- Models `build_visibility_config` (metric name strips non-alphanumeric
characters). -/
def build_visibility_config (name : String) (indent : Nat) : String :=
  let ind := indentStr indent
  let metric_name : String := ⟨name.data.filter Char.isAlphanum⟩
  ind ++ "visibility_config \x7b\n" ++
  ind ++ "  cloudwatch_metrics_enabled = true\n" ++
  ind ++ "  metric_name                = \"" ++ metric_name ++ "\"\n" ++
  ind ++ "  sampled_requests_enabled   = true\n" ++
  ind ++ "\x7d"

/-- Models `build_action`; a falsy (absent or empty) `custom_response` is
`none`.  Any action other than allow/count/block falls through to the
final allow block. -/
def build_action (action : String) (custom_response : Option CustomResponse) (indent : Nat) : String :=
  let ind := indentStr indent
  if action = "allow" then
    ind ++ "action \x7b\n" ++ ind ++ "  allow \x7b\x7d\n" ++ ind ++ "\x7d"
  else if action = "count" then
    ind ++ "action \x7b\n" ++ ind ++ "  count \x7b\x7d\n" ++ ind ++ "\x7d"
  else if action = "block" then
    match custom_response with
    | some cr =>
      let resp_code := cr.response_code.getD 403
      let body_key := cr.custom_response_body_key.getD ""
      ind ++ "action \x7b\n" ++
      ind ++ "  block \x7b\n" ++
      ind ++ "    custom_response \x7b\n" ++
      ind ++ "      response_code              = " ++ toString resp_code ++ "\n" ++
      ind ++ "      custom_response_body_key   = \"" ++ body_key ++ "\"\n" ++
      ind ++ "    \x7d\n" ++
      ind ++ "  \x7d\n" ++
      ind ++ "\x7d"
    | none =>
      ind ++ "action \x7b\n" ++ ind ++ "  block \x7b\x7d\n" ++ ind ++ "\x7d"
  else
    ind ++ "action \x7b\n" ++ ind ++ "  allow \x7b\x7d\n" ++ ind ++ "\x7d"

/-- Models `build_rule_labels` (falsy label emits nothing; a truthy
namespace is prepended with a colon). -/
def build_rule_labels (label : Option String) (namespace_ : Option String) (indent : Nat) : String :=
  if !truthyStr label then ""
  else
    let ind := indentStr indent
    let l := label.getD ""
    let full_label := if truthyStr namespace_ then namespace_.getD "" ++ ":" ++ l else l
    ind ++ "rule_label \x7b\n" ++
    ind ++ "  name = \"" ++ full_label ++ "\"\n" ++
    ind ++ "\x7d"

/-- Models `sanitize_resource_name`: every character outside
`[a-zA-Z0-9_]` becomes `_`. -/
def sanitize_resource_name (name : String) : String :=
  ⟨name.data.map (fun c => if c.isAlphanum || c == '_' then c else '_')⟩

/-- The policy variant being assembled: the `mode` argument
(`"count"` / `"block"`) of `TerraformBuilder._build_pre_process_rule_groups`. -/
inductive Mode where
  | count
  | block
deriving DecidableEq

/-- Models `TerraformBuilder.__init__`: `self.project =
config.get("metadata", {}).get("project", "waf-policy")`. -/
def builder_project (config : PolicyConfig) : String :=
  (config.metadata.getD {}).project.getD "waf-policy"

/-- Models `TerraformBuilder._get_resource_name`: the group's `name`
field (falling back to its config key) with `${project}` expanded, then
sanitized. -/
def get_resource_name (project : String) (name : String) (group : RuleGroup) : String :=
  let group_name := group.name.getD name
  let group_name := py_replace group_name "$\x7bproject\x7d" project
  sanitize_resource_name group_name

/-- One member entry of a variant's `preProcessRuleGroups` array, as the
dictionary built inside `_build_pre_process_rule_groups`
(`overrideAction` is flattened to its `type` string; `ruleActionOverrides`
entries are flattened to (name, action) pairs). -/
structure PreEntry where
  ruleGroupType : String
  ruleGroupArn : String
  sampledRequestsEnabled : Bool
  excludeRules : List String
  managedRuleGroupIdentifier : Option String
  overrideActionType : String
  ruleActionOverrides : Option (List (String × String)) := none
deriving DecidableEq

/-- Loop body of `_build_pre_process_rule_groups` for one `(name, group)`
pair: `none` when the loop `continue`s without appending, otherwise the
`(ref_type, ref_name, entry)` triple it appends. -/
def entryFor (config : PolicyConfig) (mode : Mode) (name : String) (group : RuleGroup) : Option (String × String × PreEntry) :=
  if mode = Mode.count && group.include_in_count == some false then none
  else
    let override_type := (match mode with
      | .count => group.override_action_count
      | .block => group.override_action_block).getD "NONE"
    let rao_src : Option (List RuleActionOverride) := match mode with
      | .count => group.rule_action_overrides_count
      | .block => group.rule_action_overrides_block
    let rule_action_overrides : Option (List (String × String)) :=
      rao_src.map (fun l => l.map (fun o => (o.name, o.action)))
    let resource_name := get_resource_name (builder_project config) name group
    match group.type with
    | some "external" =>
      let arn_var := match mode with
        | .count =>
          match group.arn_variable_count with
          | some a => a
          | none => group.arn_variable.getD ""
        | .block =>
          match group.arn_variable_block with
          | some a => a
          | none => group.arn_variable.getD ""
      if arn_var = "" then none
      else
        some ("var", arn_var,
          { ruleGroupType := "RuleGroup"
            ruleGroupArn := "$\x7bvar." ++ arn_var ++ "\x7d"
            sampledRequestsEnabled := true
            excludeRules := []
            managedRuleGroupIdentifier := none
            overrideActionType := override_type
            -- `if rule_action_overrides:` — a missing key or an empty list is falsy
            ruleActionOverrides := match rule_action_overrides with
              | some [] => none
              | some l => some l
              | none => none })
    | some "custom" =>
      let arn_ref := "aws_wafv2_rule_group." ++ resource_name ++ ".arn"
      some ("resource", arn_ref,
        { ruleGroupType := "RuleGroup"
          ruleGroupArn := "$\x7b" ++ arn_ref ++ "\x7d"
          sampledRequestsEnabled := true
          excludeRules := []
          managedRuleGroupIdentifier := none
          overrideActionType := override_type
          ruleActionOverrides := none })
    | some "module" =>
      let output_arn := group.output_arn.getD "arn"
      let arn_ref := "module." ++ resource_name ++ "." ++ output_arn
      some ("module", arn_ref,
        { ruleGroupType := "RuleGroup"
          ruleGroupArn := "$\x7b" ++ arn_ref ++ "\x7d"
          sampledRequestsEnabled := true
          excludeRules := []
          managedRuleGroupIdentifier := none
          overrideActionType := override_type
          ruleActionOverrides := none })
    | _ => none

/-- Sort key of `_build_pre_process_rule_groups`:
`x[1].get("order", 999)`. -/
def order_key (group : RuleGroup) : Int := group.order.getD 999

/-- Stable ascending insertion used to model Python `sorted`. -/
def insert_by_order (x : String × RuleGroup) : List (String × RuleGroup) → List (String × RuleGroup)
  | [] => [x]
  | y :: ys => if order_key y.2 < order_key x.2 then y :: insert_by_order x ys else x :: y :: ys

/-- The rule groups sorted ascending by `order` (stable, like Python
`sorted` with `key=lambda x: x[1].get("order", 999)`). -/
def sorted_rule_groups (config : PolicyConfig) : List (String × RuleGroup) :=
  (config.rule_groups.getD []).foldr insert_by_order []

/-- The `rule_groups` list accumulated by
`_build_pre_process_rule_groups` before formatting: one optional entry
per group, in sorted order. -/
def pre_process_entries (config : PolicyConfig) (mode : Mode) : List (String × String × PreEntry) :=
  (sorted_rule_groups config).filterMap (fun p => entryFor config mode p.1 p.2)

/-- Models `TerraformBuilder._build_single_rule`. -/
def build_single_rule (config : PolicyConfig) (rule : Rule) (namespace_ : String) : String :=
  let name := rule.name.getD "rule"
  let priority := rule.priority.getD 0
  let action := rule.action.getD "count"
  let label := rule.label
  let custom_response := rule.custom_response
  let statement := rule.statement.getD Stmt.unrecognized
  let action_hcl := build_action action custom_response 4
  let statement_hcl := build_statement statement config 6
  let visibility_hcl := build_visibility_config name 4
  let label_hcl := if truthyStr label then build_rule_labels label (some namespace_) 4 else ""
  "  rule \x7b\n" ++
  "    name     = \"" ++ name ++ "\"\n" ++
  "    priority = " ++ toString priority ++ "\n\n" ++
  action_hcl ++ "\n\n" ++
  "    statement \x7b\n" ++
  statement_hcl ++ "\n" ++
  "    \x7d\n" ++
  label_hcl ++ "\n" ++
  visibility_hcl ++ "\n" ++
  "  \x7d"

/-- Models `TerraformBuilder._build_custom_rules`: the member rules of a
custom group, each built by `_build_single_rule`, joined in the order
the `rules` list has in the source configuration. -/
def build_custom_rules (config : PolicyConfig) (group : RuleGroup) (namespace_ : String) : String :=
  let rules := group.rules.getD []
  joinNL (rules.map (fun rule => build_single_rule config rule namespace_))

/-- External facilities `validators.py` calls out to: `re.compile`
(`none` when the pattern compiles, `some msg` with the exception text
otherwise) and `ipaddress.ip_network` CIDR parsing. -/
structure Oracles where
  regexErr : String → Option String
  cidrOk : String → Bool

/-- `WAFPolicyValidator.VALID_SCOPES`. -/
def VALID_SCOPES : List String := ["CLOUDFRONT", "REGIONAL"]

/-- `WAFPolicyValidator.VALID_ACTIONS`. -/
def VALID_ACTIONS : List String := ["allow", "block", "count", "none"]

/-- `WAFPolicyValidator.VALID_RULE_TYPES`. -/
def VALID_RULE_TYPES : List String := ["ip_set", "managed", "custom", "external", "module"]

/-- `WAFPolicyValidator.VALID_FIELDS` (the validator-accepted superset). -/
def VALID_FIELDS : List String :=
  ["BODY", "JSON_BODY", "HEADERS", "COOKIES", "URI_PATH",
   "QUERY_STRING", "SINGLE_HEADER", "SINGLE_QUERY_ARGUMENT",
   "ALL_QUERY_ARGUMENTS", "METHOD"]

/-- `WAFPolicyValidator.VALID_POSITIONAL_CONSTRAINTS`. -/
def VALID_POSITIONAL_CONSTRAINTS : List String :=
  ["EXACTLY", "STARTS_WITH", "ENDS_WITH", "CONTAINS", "CONTAINS_WORD"]

/-- `WAFPolicyValidator.VALID_COMPARISON_OPERATORS`. -/
def VALID_COMPARISON_OPERATORS : List String := ["EQ", "NE", "LE", "LT", "GE", "GT"]

/-- Models `_validate_metadata`: returns (errors, warnings). -/
def validate_metadata (metadata : Metadata) : List String × List String :=
  let e :=
    (if metadata.project.isNone then ["Missing required metadata field: project"] else [])
    ++ (if metadata.policy_name.isNone then ["Missing required metadata field: policy_name"] else [])
    ++ (if metadata.account_id.isNone then ["Missing required metadata field: account_id"] else [])
  let w := match metadata.account_id with
    | none => []
    | some account_id =>
      if !(account_id.data.all Char.isDigit) || account_id.length != 12 then
        ["Account ID " ++ quo account_id ++ " should be 12 digits"]
      else []
  (e, w)

/-- Models `_validate_settings`. -/
def validate_settings (settings : Settings) : List String :=
  let scope := settings.scope.getD ""
  (if scope != "" && !(VALID_SCOPES.contains scope) then
    ["Invalid scope " ++ quo scope ++ ". Must be CLOUDFRONT or REGIONAL"] else [])
  ++ (let default_action := settings.default_action.getD ""
      if default_action != "" && !(["allow", "block", "count"].contains default_action) then
        ["Invalid default_action " ++ quo default_action] else [])

/-- Models `_validate_allowed_hosts`. -/
def validate_allowed_hosts (hosts : List HostDef) : List String :=
  hosts.flatMap (fun host =>
    (if host.host.isNone then ["allowed_hosts entry missing " ++ quo "host" ++ " field"] else [])
    ++ (let match_type := host.match_.getD "EXACTLY"
        if !(VALID_POSITIONAL_CONSTRAINTS.contains match_type) then
          ["Invalid match type " ++ quo match_type ++ " in allowed_hosts"] else []))

/-- Models `_validate_byte_match`. -/
def validate_byte_match (_group_name rule_name : String) (byte_match : MatchDict) : List String :=
  let field := byte_match.field.getD ""
  (if field != "" && !(VALID_FIELDS.contains field) then
    ["Rule " ++ quo rule_name ++ ": Invalid field " ++ quo field] else [])
  ++ (if field == "SINGLE_HEADER" && !truthyStr byte_match.header_name then
    ["Rule " ++ quo rule_name ++ ": SINGLE_HEADER requires header_name"] else [])
  ++ (let constraint := byte_match.positional_constraint.getD ""
      if constraint != "" && !(VALID_POSITIONAL_CONSTRAINTS.contains constraint) then
        ["Rule " ++ quo rule_name ++ ": Invalid positional_constraint " ++ quo constraint] else [])

/-- Models `_validate_match_statement` (sqli/xss). -/
def validate_match_statement (_group_name rule_name : String) (m : MatchDict) : List String :=
  let field := m.field.getD ""
  if field != "" && !(VALID_FIELDS.contains field) then
    ["Rule " ++ quo rule_name ++ ": Invalid field " ++ quo field] else []

/-- Models `_validate_size_constraint`.  The `size must be an integer`
branch is unrepresentable here because the embedding types `size` as an
integer. -/
def validate_size_constraint (_group_name rule_name : String) (constraint : MatchDict) : List String :=
  let field := constraint.field.getD ""
  (if field != "" && !(VALID_FIELDS.contains field) then
    ["Rule " ++ quo rule_name ++ ": Invalid field " ++ quo field] else [])
  ++ (let operator := constraint.comparison_operator.getD ""
      if operator != "" && !(VALID_COMPARISON_OPERATORS.contains operator) then
        ["Rule " ++ quo rule_name ++ ": Invalid comparison_operator " ++ quo operator] else [])

/-- Models `_validate_regex_match`; pattern compilation goes through the
`regexErr` oracle. -/
def validate_regex_match (o : Oracles) (_group_name rule_name : String) (regex : MatchDict) : List String :=
  let field := regex.field.getD ""
  (if field != "" && !(VALID_FIELDS.contains field) then
    ["Rule " ++ quo rule_name ++ ": Invalid field " ++ quo field] else [])
  ++ (let regex_string := regex.regex_string.getD ""
      if regex_string != "" then
        match o.regexErr regex_string with
        | some e => ["Rule " ++ quo rule_name ++ ": Invalid regex " ++ quo regex_string ++ ": " ++ e]
        | none => []
      else [])

/-- Models `_validate_label_match`. -/
def validate_label_match (_group_name rule_name : String) (label_match : MatchDict) : List String :=
  let scope := label_match.scope.getD ""
  if scope != "" && !(["LABEL", "NAMESPACE"].contains scope) then
    ["Rule " ++ quo rule_name ++ ": Invalid label scope " ++ quo scope] else []

/-- Python truthiness of the `allowed_hosts` value (absent or empty list
is falsy). -/
def truthyHosts : Option (List HostDef) → Bool
  | none => false
  | some [] => false
  | some (_ :: _) => true

mutual

/-- Models `_validate_statement`: recursive check by node kind, returning
(errors, warnings).  The `or_methods must be a list` branch is
unrepresentable because the embedding types `or_methods` as a list. -/
def validate_statement (o : Oracles) (config : PolicyConfig) (group_name rule_name : String) (statement : Stmt) : List String × List String :=
  match statement with
  | .andS subs => validate_statement_list o config group_name rule_name subs
  | .orS subs => validate_statement_list o config group_name rule_name subs
  | .notS sub => validate_statement o config group_name rule_name sub
  | .orMethods _ => ([], [])
  | .orHostsAllowedTok =>
    ([], if !truthyHosts config.allowed_hosts then
      ["Rule " ++ quo rule_name ++ ": references allowed_hosts but none defined"] else [])
  | .orHostsInline _ => ([], [])
  | .orHostsOther => ([], [])
  | .byteMatch m => (validate_byte_match group_name rule_name m, [])
  | .sqliMatch m => (validate_match_statement group_name rule_name m, [])
  | .xssMatch m => (validate_match_statement group_name rule_name m, [])
  | .sizeConstraint m => (validate_size_constraint group_name rule_name m, [])
  | .regexMatch m => (validate_regex_match o group_name rule_name m, [])
  | .labelMatch m => (validate_label_match group_name rule_name m, [])
  | .unrecognized => ([], [])

/-- Children of an and/or combinator, validated in order with the
(errors, warnings) pairs concatenated. -/
def validate_statement_list (o : Oracles) (config : PolicyConfig) (group_name rule_name : String) (subs : List Stmt) : List String × List String :=
  match subs with
  | [] => ([], [])
  | s :: rest =>
    let p := validate_statement o config group_name rule_name s
    let ps := validate_statement_list o config group_name rule_name rest
    (p.1 ++ ps.1, p.2 ++ ps.2)

end

/-- Models `_validate_rule`. -/
def validate_rule (o : Oracles) (config : PolicyConfig) (group_name : String) (rule : Rule) : List String × List String :=
  let rule_name := rule.name.getD "unknown"
  let e :=
    (if rule.name.isNone then ["Rule in " ++ quo group_name ++ " missing name"] else [])
    ++ (if rule.action.isNone then ["Rule " ++ quo rule_name ++ " missing action"] else [])
    ++ (if rule.statement.isNone then ["Rule " ++ quo rule_name ++ " missing statement"] else [])
    ++ (let action := rule.action.getD ""
        if action != "" && !(VALID_ACTIONS.contains action) then
          ["Rule " ++ quo rule_name ++ ": Invalid action " ++ quo action] else [])
  match rule.statement with
  | some st =>
    let p := validate_statement o config group_name rule_name st
    (e ++ p.1, p.2)
  | none => (e, [])

/-- The rules of a custom group validated in order. -/
def validate_rules_list (o : Oracles) (config : PolicyConfig) (group_name : String) : List Rule → List String × List String
  | [] => ([], [])
  | r :: rest =>
    let p := validate_rule o config group_name r
    let ps := validate_rules_list o config group_name rest
    (p.1 ++ ps.1, p.2 ++ ps.2)

/-- Models `_validate_custom_group` (`if not rules:` treats a missing and
an empty list alike). -/
def validate_custom_group (o : Oracles) (config : PolicyConfig) (name : String) (group : RuleGroup) : List String × List String :=
  let rules := group.rules.getD []
  let e0 := if rules.isEmpty then ["Rule group " ++ quo name ++ ": custom type must have rules"] else []
  let p := validate_rules_list o config name rules
  (e0 ++ p.1, p.2)

/-- Models `_validate_ip_set_group`. -/
def validate_ip_set_group (o : Oracles) (name : String) (group : RuleGroup) : List String :=
  (if group.ip_addresses.isNone then ["Rule group " ++ quo name ++ ": ip_set must have ip_addresses"] else [])
  ++ (group.ip_addresses.getD []).flatMap (fun ip =>
      if !(o.cidrOk ip) then ["Rule group " ++ quo name ++ ": Invalid CIDR " ++ quo ip] else [])

/-- Models `_validate_managed_group`. -/
def validate_managed_group (name : String) (group : RuleGroup) : List String :=
  if group.managed_rule_group.isNone then
    ["Rule group " ++ quo name ++ ": managed type requires managed_rule_group"] else []

/-- Models `_validate_external_group`: requires `arn_variable` or at
least one of `arn_variable_count` / `arn_variable_block` (key presence,
not truthiness). -/
def validate_external_group (name : String) (group : RuleGroup) : List String :=
  let has_single := group.arn_variable.isSome
  let has_split := group.arn_variable_count.isSome || group.arn_variable_block.isSome
  if !has_single && !has_split then
    ["Rule group " ++ quo name ++ ": external type requires arn_variable or arn_variable_count/arn_variable_block"]
  else []

/-- Models `_validate_module_group`. -/
def validate_module_group (name : String) (group : RuleGroup) : List String :=
  if group.module_source.isNone then
    ["Rule group " ++ quo name ++ ": module type requires module_source"] else []

/-- Per-type dispatch of `_validate_rule_groups` (the `if rule_type ==`
chain); only custom groups can add warnings. -/
def validate_group_by_type (o : Oracles) (config : PolicyConfig) (name : String) (group : RuleGroup) : List String × List String :=
  match group.type with
  | some "ip_set" => (validate_ip_set_group o name group, [])
  | some "managed" => (validate_managed_group name group, [])
  | some "custom" => validate_custom_group o config name group
  | some "external" => (validate_external_group name group, [])
  | some "module" => (validate_module_group name group, [])
  | _ => ([], [])

/-- Loop of `_validate_rule_groups`: walks the groups in insertion order
carrying the `orders` set of already-seen order values. -/
def validate_rule_groups_go (o : Oracles) (config : PolicyConfig) : List (String × RuleGroup) → List Int → List String × List String
  | [], _ => ([], [])
  | (name, group) :: rest, orders =>
    let dupE := match group.order with
      | some ov =>
        if orders.contains ov then ["Duplicate order " ++ toString ov ++ " in rule_groups"] else []
      | none => []
    let orders2 := match group.order with
      | some ov => ov :: orders
      | none => orders
    let typeE :=
      let rule_type := group.type.getD ""
      if !(VALID_RULE_TYPES.contains rule_type) then
        ["Invalid rule type " ++ quo rule_type ++ " in " ++ name] else []
    let p := validate_group_by_type o config name group
    let ps := validate_rule_groups_go o config rest orders2
    (dupE ++ typeE ++ p.1 ++ ps.1, p.2 ++ ps.2)

/-- Models `_validate_rule_groups`. -/
def validate_rule_groups (o : Oracles) (config : PolicyConfig) : List String × List String :=
  validate_rule_groups_go o config (config.rule_groups.getD []) []

/-- Models `_validate_security_policy`. -/
def validate_security_policy (config : PolicyConfig) : List String :=
  let security_policy := config.security_policy.getD {}
  let rule_group_names := (config.rule_groups.getD []).map (fun p => p.1)
  let first_groups := security_policy.first_rule_groups.getD []
  let last_groups := security_policy.last_rule_groups.getD []
  (first_groups ++ last_groups).flatMap (fun group_name =>
    if !(rule_group_names.contains group_name) then
      ["Security policy references undefined rule group " ++ quo group_name] else [])

/-- Models `_validate_test_definitions` (`none` covers the falsy empty
dictionary the code returns early on). -/
def validate_test_definitions (test_defs : Option TestDefs) : List String :=
  match test_defs with
  | none => []
  | some td =>
    (td.test_suites.getD []).flatMap (fun suite =>
      (if suite.name.isNone then ["Test suite missing name"] else [])
      ++ (suite.tests.getD []).flatMap (fun test =>
          (if test.id.isNone then
            ["Test in suite " ++ quo (py_str_opt suite.name) ++ " missing id"] else [])
          ++ (if test.request.isNone then
            ["Test " ++ quo (py_str_opt test.id) ++ " missing request"] else [])))

/-- The required-section errors `validate` collects before its fail-fast
return. -/
def missing_required_errors (config : PolicyConfig) : List String :=
  (if config.version.isNone then ["Missing required field: version"] else [])
  ++ (if config.metadata.isNone then ["Missing required field: metadata"] else [])
  ++ (if config.settings.isNone then ["Missing required field: settings"] else [])
  ++ (if config.rule_groups.isNone then ["Missing required field: rule_groups"] else [])

/-- The outcome of `WAFPolicyValidator.validate`: the returned boolean
and the `self.errors` / `self.warnings` lists it leaves behind. -/
structure ValidationResult where
  ok : Bool
  errors : List String
  warnings : List String
deriving DecidableEq

/-- Models `WAFPolicyValidator.validate`: fail-fast on missing required
top-level sections, otherwise run every semantic check, accumulate, and
succeed exactly when no error was collected. -/
def validate (o : Oracles) (config : PolicyConfig) : ValidationResult :=
  let missing := missing_required_errors config
  if missing.isEmpty then
    let mp := validate_metadata (config.metadata.getD {})
    let sE := validate_settings (config.settings.getD {})
    let ahE := validate_allowed_hosts (config.allowed_hosts.getD [])
    let rgp := validate_rule_groups o config
    let spE := validate_security_policy config
    let tdE := validate_test_definitions config.test_definitions
    let errors := mp.1 ++ sE ++ ahE ++ rgp.1 ++ spE ++ tdE
    ⟨errors.isEmpty, errors, mp.2 ++ rgp.2⟩
  else
    ⟨false, missing, []⟩

/-- Field selector of a synthetic shorthand member, following the
specification wording: the METHOD field for `or_methods`, the named
single header (`host`) for `or_hosts`. -/
inductive SynthField where
  | methodField
  | hostHeader (header_name : String)

/-- Specification-side description of one synthetic byte-match member of
a shorthand expansion: a search string matched with a positional
constraint against a field, with a single text transformation. -/
structure SynthByteMatch where
  search_string : String
  positional_constraint : String
  field : SynthField
  transform_priority : Int
  transform_type : String

/-- Rendering of a synthetic member's field block. -/
def render_synth_field (ind : String) : SynthField → String
  | .methodField =>
    ind ++ "      field_to_match \x7b\n" ++
    ind ++ "        method \x7b\x7d\n" ++
    ind ++ "      \x7d\n"
  | .hostHeader h =>
    ind ++ "      field_to_match \x7b\n" ++
    ind ++ "        single_header \x7b\n" ++
    ind ++ "          name = \"" ++ h ++ "\"\n" ++
    ind ++ "        \x7d\n" ++
    ind ++ "      \x7d\n"

/-- Rendering of one synthetic byte-match member wrapped in its
`statement` container. -/
def render_synth_member (ind : String) (m : SynthByteMatch) : String :=
  ind ++ "  statement \x7b\n" ++
  ind ++ "    byte_match_statement \x7b\n" ++
  ind ++ "      search_string         = \"" ++ m.search_string ++ "\"\n" ++
  ind ++ "      positional_constraint = \"" ++ m.positional_constraint ++ "\"\n" ++
  render_synth_field ind m.field ++
  ind ++ "      text_transformation \x7b\n" ++
  ind ++ "        priority = " ++ toString m.transform_priority ++ "\n" ++
  ind ++ "        type     = \"" ++ m.transform_type ++ "\"\n" ++
  ind ++ "      \x7d\n" ++
  ind ++ "    \x7d\n" ++
  ind ++ "  \x7d"

/-- Rendering of an Or-combinator of synthetic byte-match members, in
list order. -/
def render_synth_or (indent : Nat) (members : List SynthByteMatch) : String :=
  let ind := indentStr indent
  ind ++ "or_statement \x7b\n" ++ joinNL (members.map (render_synth_member ind)) ++ "\n" ++ ind ++ "\x7d"

/-- The members an `or_methods` shorthand must expand to, per the
specification: one per verb, in given order, matching METHOD with
EXACTLY against the verb lower-cased, with a LOWERCASE transformation at
priority 0. -/
def spec_or_methods_members (methods : List String) : List SynthByteMatch :=
  methods.map (fun v =>
    { search_string := py_lower v, positional_constraint := "EXACTLY",
      field := SynthField.methodField, transform_priority := 0, transform_type := "LOWERCASE" })

/-- The members an `or_hosts` shorthand must expand to, per the
specification: one per host, in list order, against the Host single
header, with the host's declared match type (default EXACTLY) and a
LOWERCASE transformation at priority 0. -/
def spec_or_hosts_members (hosts : List HostDef) : List SynthByteMatch :=
  hosts.map (fun h =>
    { search_string := h.host.getD "", positional_constraint := h.match_.getD "EXACTLY",
      field := SynthField.hostHeader "host", transform_priority := 0, transform_type := "LOWERCASE" })

/-- The fields the compiler's lowering table covers (the six branches of
`build_field_to_match`). -/
def compiler_lowered_fields : List String :=
  ["BODY", "QUERY_STRING", "URI_PATH", "METHOD", "SINGLE_HEADER", "ALL_QUERY_ARGUMENTS"]

/-- Specification-side stable insertion of a rule into a list sorted
ascending by declared priority. -/
def spec_insert_rule_by_priority (x : Rule) : List Rule → List Rule
  | [] => [x]
  | y :: ys =>
    if y.priority.getD 0 < x.priority.getD 0 then y :: spec_insert_rule_by_priority x ys
    else x :: y :: ys

/-- Specification-side ascending sort of a custom group's rules by their
declared priority (what the spec asserts the assembler emits). -/
def spec_sort_rules_by_priority (rules : List Rule) : List Rule :=
  rules.foldr spec_insert_rule_by_priority []

/-- A minimal custom rule carrying only a priority. -/
def c1_rule (p : Int) : Rule :=
  { name := some "r", priority := some p, action := some "count" }

/-- A custom group whose rules are declared with priorities 30, 10, 20
in that source order. -/
def c1_group : RuleGroup :=
  { type := some "custom", rules := some ([30, 10, 20].map c1_rule) }

/-- The exact HCL block `_build_single_rule` emits for `c1_rule p`. -/
def c1_rule_block (p : Int) : String :=
  "  rule \x7b\n    name     = \"r\"\n    priority = " ++ toString p ++
  "\n\n    action \x7b\n      count \x7b\x7d\n    \x7d\n\n    statement \x7b\n\n    \x7d\n\n    visibility_config \x7b\n      cloudwatch_metrics_enabled = true\n      metric_name                = \"r\"\n      sampled_requests_enabled   = true\n    \x7d\n  \x7d"

/-- A concrete oracle instance (every regex compiles, every CIDR parses)
used to evaluate the validator on concrete configurations. -/
def o0 : Oracles :=
  { regexErr := fun _ => none, cidrOk := fun _ => true }

/-- A managed rule group with a given order value (otherwise valid). -/
def c2_group (ord : Int) : RuleGroup :=
  { type := some "managed", order := some ord,
    managed_rule_group := some "AWSManagedRulesCommonRuleSet" }

/-- A structurally complete configuration whose two rule groups `alpha`
and `beta` share `order: 5` and are otherwise valid. -/
def c2_config : PolicyConfig :=
  { version := some "1.0"
    metadata := some { project := some "proj", policy_name := some "pol", account_id := some "123456789012" }
    settings := some { scope := some "REGIONAL" }
    rule_groups := some [("alpha", c2_group 5), ("beta", c2_group 5)] }

/-- A custom group whose two variants differ only in their override
actions (`override_action_block: COUNT`, count side defaulted to NONE). -/
def c8_group : RuleGroup :=
  { type := some "custom", name := some "grp", order := some 1,
    override_action_block := some "COUNT",
    rules := some [c1_rule 1] }

/-- An external group declaring only a count-side ARN variable. -/
def c10_group : RuleGroup :=
  { type := some "external", order := some 2, arn_variable_count := some "common_arn_count" }

/-- The `orders` set accumulated by the `_validate_rule_groups` loop
after walking a list of groups. -/
def seen_orders : List (String × RuleGroup) → List Int → List Int
  | [], orders => orders
  | (_, g) :: rest, orders =>
    seen_orders rest (match g.order with
      | some v => v :: orders
      | none => orders)

/-- Printing the integer zero. -/
theorem toString_int_zero : toString (0 : Int) = "0" := by decide

/-- One `or_methods` member block equals the rendering of its
specification-side description. -/
theorem or_methods_member_eq (ind method : String) :
    (ind ++ "  statement \x7b\n" ++
    ind ++ "    byte_match_statement \x7b\n" ++
    ind ++ "      search_string         = \"" ++ py_lower method ++ "\"\n" ++
    ind ++ "      positional_constraint = \"EXACTLY\"\n" ++
    ind ++ "      field_to_match \x7b\n" ++
    ind ++ "        method \x7b\x7d\n" ++
    ind ++ "      \x7d\n" ++
    ind ++ "      text_transformation \x7b\n" ++
    ind ++ "        priority = 0\n" ++
    ind ++ "        type     = \"LOWERCASE\"\n" ++
    ind ++ "      \x7d\n" ++
    ind ++ "    \x7d\n" ++
    ind ++ "  \x7d")
    = render_synth_member ind
        { search_string := py_lower method, positional_constraint := "EXACTLY",
          field := SynthField.methodField, transform_priority := 0, transform_type := "LOWERCASE" } := by
  rw [(by decide : ("      positional_constraint = \"EXACTLY\"\n" : String) = "      positional_constraint = \"" ++ "EXACTLY" ++ "\"\n"),
      (by decide : ("        priority = 0\n" : String) = "        priority = " ++ "0" ++ "\n"),
      (by decide : ("        type     = \"LOWERCASE\"\n" : String) = "        type     = \"" ++ "LOWERCASE" ++ "\"\n")]
  simp only [render_synth_member, render_synth_field, toString_int_zero, String.append_assoc]

/-- The member list built by `build_or_methods_statement` equals the
rendering of the specification-side member list. -/
theorem or_methods_members_map_eq (ind : String) (methods : List String) :
    methods.map (fun method =>
      ind ++ "  statement \x7b\n" ++
      ind ++ "    byte_match_statement \x7b\n" ++
      ind ++ "      search_string         = \"" ++ py_lower method ++ "\"\n" ++
      ind ++ "      positional_constraint = \"EXACTLY\"\n" ++
      ind ++ "      field_to_match \x7b\n" ++
      ind ++ "        method \x7b\x7d\n" ++
      ind ++ "      \x7d\n" ++
      ind ++ "      text_transformation \x7b\n" ++
      ind ++ "        priority = 0\n" ++
      ind ++ "        type     = \"LOWERCASE\"\n" ++
      ind ++ "      \x7d\n" ++
      ind ++ "    \x7d\n" ++
      ind ++ "  \x7d")
    = (spec_or_methods_members methods).map (render_synth_member ind) := by
  induction methods with
  | nil => rfl
  | cons v vs ih =>
    simp only [spec_or_methods_members, List.map_cons] at ih ⊢
    rw [or_methods_member_eq ind v, ih]

/-- One `or_hosts` member block equals the rendering of its
specification-side description. -/
theorem or_hosts_member_eq (ind : String) (host_def : HostDef) :
    (ind ++ "  statement \x7b\n" ++
    ind ++ "    byte_match_statement \x7b\n" ++
    ind ++ "      search_string         = \"" ++ host_def.host.getD "" ++ "\"\n" ++
    ind ++ "      positional_constraint = \"" ++ host_def.match_.getD "EXACTLY" ++ "\"\n" ++
    ind ++ "      field_to_match \x7b\n" ++
    ind ++ "        single_header \x7b\n" ++
    ind ++ "          name = \"host\"\n" ++
    ind ++ "        \x7d\n" ++
    ind ++ "      \x7d\n" ++
    ind ++ "      text_transformation \x7b\n" ++
    ind ++ "        priority = 0\n" ++
    ind ++ "        type     = \"LOWERCASE\"\n" ++
    ind ++ "      \x7d\n" ++
    ind ++ "    \x7d\n" ++
    ind ++ "  \x7d")
    = render_synth_member ind
        { search_string := host_def.host.getD "", positional_constraint := host_def.match_.getD "EXACTLY",
          field := SynthField.hostHeader "host", transform_priority := 0, transform_type := "LOWERCASE" } := by
  rw [(by decide : ("          name = \"host\"\n" : String) = "          name = \"" ++ "host" ++ "\"\n"),
      (by decide : ("        priority = 0\n" : String) = "        priority = " ++ "0" ++ "\n"),
      (by decide : ("        type     = \"LOWERCASE\"\n" : String) = "        type     = \"" ++ "LOWERCASE" ++ "\"\n")]
  simp only [render_synth_member, render_synth_field, toString_int_zero, String.append_assoc]

/-- The member list built by `build_or_hosts_statement` equals the
rendering of the specification-side member list. -/
theorem or_hosts_members_map_eq (ind : String) (hosts : List HostDef) :
    hosts.map (fun host_def =>
      ind ++ "  statement \x7b\n" ++
      ind ++ "    byte_match_statement \x7b\n" ++
      ind ++ "      search_string         = \"" ++ host_def.host.getD "" ++ "\"\n" ++
      ind ++ "      positional_constraint = \"" ++ host_def.match_.getD "EXACTLY" ++ "\"\n" ++
      ind ++ "      field_to_match \x7b\n" ++
      ind ++ "        single_header \x7b\n" ++
      ind ++ "          name = \"host\"\n" ++
      ind ++ "        \x7d\n" ++
      ind ++ "      \x7d\n" ++
      ind ++ "      text_transformation \x7b\n" ++
      ind ++ "        priority = 0\n" ++
      ind ++ "        type     = \"LOWERCASE\"\n" ++
      ind ++ "      \x7d\n" ++
      ind ++ "    \x7d\n" ++
      ind ++ "  \x7d")
    = (spec_or_hosts_members hosts).map (render_synth_member ind) := by
  induction hosts with
  | nil => rfl
  | cons h hs ih =>
    simp only [spec_or_hosts_members, List.map_cons] at ih ⊢
    rw [or_hosts_member_eq ind h, ih]

/-- C3: compiling an `or_methods` shorthand dispatches to
`build_or_methods_statement`, whose output is the Or-combinator of
exactly one synthetic byte-match per verb, in list order, each matching
METHOD with positional constraint EXACTLY against the lower-cased verb
and carrying a single LOWERCASE text transformation at priority 0. -/
theorem C3_or_methods_expansion :
    ∀ (methods : List String) (config : PolicyConfig) (indent : Nat),
      build_statement (Stmt.orMethods methods) config indent = build_or_methods_statement methods indent
      ∧ build_or_methods_statement methods indent
          = render_synth_or indent (spec_or_methods_members methods) := by
  intro methods config indent
  constructor
  · simp [build_statement]
  · simp only [build_or_methods_statement, render_synth_or, joinNL]
    rw [or_methods_members_map_eq]

/-- C4: an `or_hosts` shorthand resolves the `${allowed_hosts}` token
from the config's global `allowed_hosts` list (empty default) and uses
any other list reference inline; in both cases the output is the
Or-combinator of one synthetic byte-match per host, in list order,
against the Host single header, with the host's declared match type
(EXACTLY when none is declared) and a LOWERCASE transformation. -/
theorem C4_or_hosts_expansion :
    ∀ (config : PolicyConfig) (hosts : List HostDef) (indent : Nat),
      build_statement Stmt.orHostsAllowedTok config indent
        = build_or_hosts_statement (config.allowed_hosts.getD []) indent
      ∧ build_statement (Stmt.orHostsInline hosts) config indent
          = build_or_hosts_statement hosts indent
      ∧ build_or_hosts_statement hosts indent
          = render_synth_or indent (spec_or_hosts_members hosts) := by
  intro config hosts indent
  refine ⟨by simp [build_statement], by simp [build_statement], ?_⟩
  simp only [build_or_hosts_statement, render_synth_or, joinNL]
  rw [or_hosts_members_map_eq]

/-- C6: a statement node matching none of the recognized shapes compiles
to an empty block (the compiler, a total function in this embedding,
never fails). -/
theorem C6_unrecognized_statement_compiles_empty :
    ∀ (config : PolicyConfig) (indent : Nat),
      build_statement Stmt.unrecognized config indent = "" := by
  intro config indent
  simp [build_statement]

/-- C5: every field outside the compiler's lowering table — including the
validator-accepted JSON_BODY, HEADERS, COOKIES and SINGLE_QUERY_ARGUMENT —
resolves to a bare BODY `field_to_match` block with no oversize-handling
override. -/
theorem C5_unlowered_field_falls_back_to_bare_body :
    (∀ (field : String) (m : MatchDict),
        py_upper field ∉ compiler_lowered_fields →
        build_field_to_match field m = "field_to_match \x7b\n          body \x7b\x7d\n        \x7d"
        ∧ strContains (build_field_to_match field m) "oversize_handling" = false)
    ∧ (["JSON_BODY", "HEADERS", "COOKIES", "SINGLE_QUERY_ARGUMENT"].all
        (fun f => VALID_FIELDS.contains f)) = true := by
  constructor
  · intro field m h
    simp only [compiler_lowered_fields, List.mem_cons, List.mem_singleton, not_or] at h
    obtain ⟨h1, h2, h3, h4, h5, h6⟩ := h
    have heq : build_field_to_match field m = "field_to_match \x7b\n          body \x7b\x7d\n        \x7d" := by
      simp [build_field_to_match, h1, h2, h3, h4, h5, h6]
    exact ⟨heq, by rw [heq]; decide⟩
  · decide

/-- C5 witness: the validator-accepted field JSON_BODY is outside the
lowering table and lowers to the bare BODY block. -/
theorem C5_witness :
    build_field_to_match "JSON_BODY" {} = "field_to_match \x7b\n          body \x7b\x7d\n        \x7d"
    ∧ strContains (build_field_to_match "JSON_BODY" {}) "oversize_handling" = false :=
  C5_unlowered_field_falls_back_to_bare_body.1 "JSON_BODY" {} (by decide)

/-- C9: any rule action other than allow, count or block — in particular
`none`, which the validator accepts — emits the same allow block as the
action `allow`. -/
theorem C9_unknown_action_emits_allow :
    (∀ (action : String) (custom_response : Option CustomResponse) (indent : Nat),
        action ∉ ["allow", "count", "block"] →
        build_action action custom_response indent = build_action "allow" custom_response indent)
    ∧ "none" ∈ VALID_ACTIONS := by
  constructor
  · intro action custom_response indent h
    simp only [List.mem_cons, List.mem_singleton, not_or] at h
    obtain ⟨h1, h2, h3⟩ := h
    simp [build_action, h1, h2, h3]
  · decide

/-- C9 witness: the action `none` emits the allow block. -/
theorem C9_witness :
    build_action "none" none 4 = build_action "allow" none 4 :=
  C9_unknown_action_emits_allow.1 "none" none 4 (by decide)

set_option maxRecDepth 40000 in
/-- C1 counterexample: for the group declaring priorities [30, 10, 20]
in source order, the emitted rules are not the priority-sorted sequence
the claim asserts. -/
theorem C1_counterexample :
    build_custom_rules {} c1_group "custom"
      ≠ joinNL ((spec_sort_rules_by_priority (c1_group.rules.getD [])).map
          (fun r => build_single_rule {} r "custom")) := by
  decide

set_option maxRecDepth 40000 in
/-- C1 (amended): `_build_custom_rules` emits a custom group's member
rules in the order the `rules` list has in the source configuration,
each carrying its declared priority; in particular priorities declared
[30, 10, 20] are emitted in the order 30, 10, 20, not sorted. -/
theorem C1_rules_emitted_in_source_order :
    (∀ (config : PolicyConfig) (group : RuleGroup) (ns : String),
        build_custom_rules config group ns
          = joinNL ((group.rules.getD []).map (fun r => build_single_rule config r ns)))
    ∧ build_custom_rules {} c1_group "custom"
        = joinNL [c1_rule_block 30, c1_rule_block 10, c1_rule_block 20] := by
  constructor
  · intro config group ns
    rfl
  · decide

/-- C8: `include_in_count: false` excludes a group from the count
variant's member list only — the block variant's loop body never
consults it; each variant's override-action descriptor comes
independently from `override_action_count` / `override_action_block`
(default NONE); and a custom group included in both variants yields
entries that differ only in that descriptor.  The last conjunct states
how the per-variant member list is assembled from the per-group loop
body over the order-sorted groups. -/
theorem C8_variant_independence :
    ∀ (config : PolicyConfig) (name : String) (group : RuleGroup),
      (group.include_in_count = some false → entryFor config Mode.count name group = none)
      ∧ (∀ b : Option Bool,
          entryFor config Mode.block name { group with include_in_count := b }
            = entryFor config Mode.block name group)
      ∧ (∀ t, entryFor config Mode.count name group = some t →
          t.2.2.overrideActionType = group.override_action_count.getD "NONE")
      ∧ (∀ t, entryFor config Mode.block name group = some t →
          t.2.2.overrideActionType = group.override_action_block.getD "NONE")
      ∧ (group.type = some "custom" → group.include_in_count ≠ some false →
          entryFor config Mode.count name group
            = (entryFor config Mode.block name group).map
                (fun t => (t.1, t.2.1,
                  { t.2.2 with overrideActionType := group.override_action_count.getD "NONE" })))
      ∧ (∀ mode, pre_process_entries config mode
          = (sorted_rule_groups config).filterMap (fun p => entryFor config mode p.1 p.2)) := by
  intro config name group
  refine ⟨?_, ?_, ?_, ?_, ?_, fun _ => rfl⟩
  · intro h
    simp [entryFor, h]
  · intro b
    simp [entryFor, get_resource_name]
  · intro t ht
    simp only [entryFor] at ht
    split at ht
    · exact absurd ht (by simp)
    · split at ht
      · split at ht
        · exact absurd ht (by simp)
        · rw [Option.some.injEq] at ht
          subst ht
          rfl
      · rw [Option.some.injEq] at ht
        subst ht
        rfl
      · rw [Option.some.injEq] at ht
        subst ht
        rfl
      · exact absurd ht (by simp)
  · intro t ht
    simp only [entryFor] at ht
    split at ht
    · exact absurd ht (by simp)
    · split at ht
      · split at ht
        · exact absurd ht (by simp)
        · rw [Option.some.injEq] at ht
          subst ht
          rfl
      · rw [Option.some.injEq] at ht
        subst ht
        rfl
      · rw [Option.some.injEq] at ht
        subst ht
        rfl
      · exact absurd ht (by simp)
  · intro hty hic
    have hb : (group.include_in_count == some false) = false := by
      simp [hic]
    simp [entryFor, hty, hb]

/-- C8 witness: a custom group with `override_action_block: COUNT` and a
defaulted count-side override yields count and block entries differing
only in the override-action descriptor. -/
theorem C8_witness :
    entryFor {} Mode.count "grp" c8_group
      = (entryFor {} Mode.block "grp" c8_group).map
          (fun t => (t.1, t.2.1,
            { t.2.2 with overrideActionType := c8_group.override_action_count.getD "NONE" })) :=
  (C8_variant_independence {} "grp" c8_group).2.2.2.2.1 rfl (by decide)

/-- C10: an external group declaring only a count-side ARN variable
passes `_validate_external_group`, yet the block variant's loop body
silently skips it; symmetrically a block-only ARN variable leaves the
count variant without an entry. -/
theorem C10_one_sided_external_arn_silently_skipped :
    ∀ (config : PolicyConfig) (name : String) (group : RuleGroup),
      group.type = some "external" →
      group.arn_variable = none →
      ((∀ v, group.arn_variable_count = some v → group.arn_variable_block = none →
          validate_external_group name group = []
          ∧ entryFor config Mode.block name group = none)
       ∧ (∀ v, group.arn_variable_block = some v → group.arn_variable_count = none →
          validate_external_group name group = []
          ∧ entryFor config Mode.count name group = none)) := by
  intro config name group hty hsingle
  constructor
  · intro v hc hb
    constructor
    · simp [validate_external_group, hc]
    · simp [entryFor, hty, hb, hsingle]
  · intro v hb hc
    constructor
    · simp [validate_external_group, hb]
    · simp [entryFor, hty, hc, hsingle]

/-- C10 witness: the concrete external group with only
`arn_variable_count` validates cleanly and is absent from the block
variant. -/
theorem C10_witness :
    validate_external_group "external_common" c10_group = []
    ∧ entryFor {} Mode.block "external_common" c10_group = none :=
  (C10_one_sided_external_arn_silently_skipped {} "external_common" c10_group rfl rfl).1
    "common_arn_count" rfl rfl

/-- C7: `validate` fails fast — with any required top-level section
missing it returns false carrying exactly the missing-section errors and
no warnings, running no semantic check; otherwise it accumulates every
section's errors and warnings and returns true exactly when the error
list is empty. -/
theorem C7_validate_fail_fast_and_accumulates :
    ∀ (o : Oracles) (config : PolicyConfig),
      (missing_required_errors config ≠ [] →
        validate o config = ⟨false, missing_required_errors config, []⟩)
      ∧ (missing_required_errors config = [] →
          (validate o config).errors
            = (validate_metadata (config.metadata.getD {})).1
              ++ validate_settings (config.settings.getD {})
              ++ validate_allowed_hosts (config.allowed_hosts.getD [])
              ++ (validate_rule_groups o config).1
              ++ validate_security_policy config
              ++ validate_test_definitions config.test_definitions
          ∧ (validate o config).warnings
            = (validate_metadata (config.metadata.getD {})).2 ++ (validate_rule_groups o config).2
          ∧ ((validate o config).ok = true ↔ (validate o config).errors = [])) := by
  intro o config
  constructor
  · intro h
    have hne : (missing_required_errors config).isEmpty = false := by
      simp [List.isEmpty_iff, h]
    simp [validate, hne]
  · intro h
    have he : (missing_required_errors config).isEmpty = true := by
      simp [List.isEmpty_iff, h]
    refine ⟨by simp [validate, he], by simp [validate, he], ?_⟩
    simp [validate, he, List.isEmpty_iff]

/-- C7 witness: the empty configuration misses all four required
sections, and validation returns immediately with exactly those errors,
no warnings and a false result. -/
theorem C7_witness :
    validate o0 {} = ⟨false, missing_required_errors {}, []⟩ :=
  (C7_validate_fail_fast_and_accumulates o0 {}).1 (by decide)

/-- Splitting the rule-group walk of `_validate_rule_groups`: the errors
of a concatenated list are the errors of the prefix followed by those of
the suffix, the latter started with the prefix's accumulated orders. -/
theorem validate_rule_groups_go_append (o : Oracles) (config : PolicyConfig)
    (xs ys : List (String × RuleGroup)) (orders : List Int) :
    (validate_rule_groups_go o config (xs ++ ys) orders).1
      = (validate_rule_groups_go o config xs orders).1
        ++ (validate_rule_groups_go o config ys (seen_orders xs orders)).1 := by
  induction xs generalizing orders with
  | nil => simp [validate_rule_groups_go, seen_orders]
  | cons p rest ih =>
    obtain ⟨n, g⟩ := p
    cases hov : g.order <;>
      simp [validate_rule_groups_go, seen_orders, hov, ih, List.append_assoc]

/-- The accumulated orders set only grows along the walk. -/
theorem mem_seen_orders (v : Int) (xs : List (String × RuleGroup)) (orders : List Int)
    (h : v ∈ orders) : v ∈ seen_orders xs orders := by
  induction xs generalizing orders with
  | nil => simpa [seen_orders] using h
  | cons p rest ih =>
    obtain ⟨n, g⟩ := p
    cases hov : g.order with
    | none =>
      simp only [seen_orders, hov]
      exact ih _ h
    | some a =>
      simp only [seen_orders, hov]
      exact ih _ (List.mem_cons_of_mem a h)

/-- Accumulated orders of a concatenated walk. -/
theorem seen_orders_append (xs ys : List (String × RuleGroup)) (orders : List Int) :
    seen_orders (xs ++ ys) orders = seen_orders ys (seen_orders xs orders) := by
  induction xs generalizing orders with
  | nil => simp [seen_orders]
  | cons p rest ih =>
    obtain ⟨n, g⟩ := p
    cases hov : g.order <;> simp [seen_orders, hov, ih]

/-- A group whose order value was already seen makes the walk emit the
duplicate-order message. -/
theorem dup_order_msg_mem (o : Oracles) (config : PolicyConfig) (n : String) (g : RuleGroup)
    (rest : List (String × RuleGroup)) (orders : List Int) (v : Int)
    (hg : g.order = some v) (hv : v ∈ orders) :
    ("Duplicate order " ++ toString v ++ " in rule_groups")
      ∈ (validate_rule_groups_go o config ((n, g) :: rest) orders).1 := by
  have hc : orders.contains v = true := List.elem_iff.mpr hv
  simp [validate_rule_groups_go, hg, hc]
  left
  exact hv

/-- C2 counterexample: with groups `alpha` and `beta` sharing `order: 5`,
validation fails, but the single emitted error names only the shared
value — it mentions neither offending group. -/
theorem C2_counterexample :
    (validate o0 c2_config).ok = false
    ∧ (validate o0 c2_config).errors = ["Duplicate order 5 in rule_groups"]
    ∧ strContains "Duplicate order 5 in rule_groups" "alpha" = false
    ∧ strContains "Duplicate order 5 in rule_groups" "beta" = false := by
  refine ⟨by decide, by decide, by decide, by decide⟩

/-- C2 (amended): in every structurally complete configuration in which
two rule groups declare the same order value, validation fails and the
error list contains the message naming the shared order value (the
message does not name the offending groups). -/
theorem C2_duplicate_order_rejected_naming_value :
    ∀ (o : Oracles) (config : PolicyConfig) (l1 l2 l3 : List (String × RuleGroup))
      (n1 n2 : String) (g1 g2 : RuleGroup) (v : Int),
      config.version.isSome = true →
      config.metadata.isSome = true →
      config.settings.isSome = true →
      config.rule_groups = some (l1 ++ (n1, g1) :: l2 ++ (n2, g2) :: l3) →
      g1.order = some v →
      g2.order = some v →
      (validate o config).ok = false
      ∧ ("Duplicate order " ++ toString v ++ " in rule_groups") ∈ (validate o config).errors := by
  intro o config l1 l2 l3 n1 n2 g1 g2 v hv hm hs hrg h1 h2
  have hv2 : config.version.isNone = false := by simp [Option.isNone_eq_false_iff, hv]
  have hm2 : config.metadata.isNone = false := by simp [Option.isNone_eq_false_iff, hm]
  have hs2 : config.settings.isNone = false := by simp [Option.isNone_eq_false_iff, hs]
  have hmiss : missing_required_errors config = [] := by
    simp [missing_required_errors, hv2, hm2, hs2, hrg]
  have he : (missing_required_errors config).isEmpty = true := by
    simp [List.isEmpty_iff, hmiss]
  have hmem : ("Duplicate order " ++ toString v ++ " in rule_groups")
      ∈ (validate_rule_groups o config).1 := by
    rw [validate_rule_groups, hrg]
    rw [(by rfl : (some (l1 ++ (n1, g1) :: l2 ++ (n2, g2) :: l3) : Option (List (String × RuleGroup))).getD []
          = l1 ++ (n1, g1) :: l2 ++ (n2, g2) :: l3)]
    rw [(by simp : l1 ++ (n1, g1) :: l2 ++ (n2, g2) :: l3
          = (l1 ++ (n1, g1) :: l2) ++ ((n2, g2) :: l3))]
    rw [validate_rule_groups_go_append]
    apply List.mem_append_right
    apply dup_order_msg_mem o config n2 g2 l3 _ v h2
    rw [seen_orders_append]
    simp only [seen_orders, h1]
    exact mem_seen_orders v l2 _ (List.mem_cons_self v _)
  have herr : ("Duplicate order " ++ toString v ++ " in rule_groups") ∈ (validate o config).errors := by
    simp [validate, he, List.mem_append]
    tauto
  refine ⟨?_, herr⟩
  have hok : (validate o config).ok = (validate o config).errors.isEmpty := by
    simp [validate, he]
  rw [hok]
  rcases hE : (validate o config).errors with _ | ⟨a, as⟩
  · rw [hE] at herr
    exact absurd herr (by simp)
  · rfl

/-- C2 witness: the concrete duplicate-order configuration fails
validation with the value-naming message among its errors. -/
theorem C2_witness :
    (validate o0 c2_config).ok = false
    ∧ ("Duplicate order " ++ toString (5 : Int) ++ " in rule_groups") ∈ (validate o0 c2_config).errors :=
  C2_duplicate_order_rejected_naming_value o0 c2_config [] [] [] "alpha" "beta"
    (c2_group 5) (c2_group 5) 5 rfl rfl rfl rfl rfl rfl
